import Mathlib

/-!
Verification development for the pdbview type-graph resolution and
layout-size engine (final design: `crates/ezpdb/src/lib.rs`,
`type_info.rs`, `symbol_types.rs`, `error.rs`).

The Rust code builds a graph of `Rc<RefCell<Type>>` nodes keyed by type
index in `ParsedPdb.types`.  Shared ownership is modelled with an explicit
heap (`heap : List Ty`) addressed by `NodeId`; two references are
"identity-equal" exactly when they are the same `NodeId`.  General
recursion in `handle_type` is modelled with an explicit fuel parameter:
`Res.diverge` means the fuel ran out, so `∀ fuel, … = .diverge` states
that the Rust recursion never terminates.  Rust panics (`panic!`,
`expect`, `unwrap`, division by zero) are modelled as `Res.panic`;
recoverable `Result::Err` values as `Res.err`, carrying the state as it
stood when the error was raised (in Rust the mutations performed before
the failure persist in `output_pdb`).
-/

/-- Type index (`TypeIndexNumber = u32` in `symbol_types.rs`). -/
abbrev TypeIndexNumber := Nat

/-- A reference to a shared node (`TypeRef = Rc<RefCell<Type>>`): an index
into the model heap.  Identity equality of `Rc`s is equality of ids. -/
abbrev NodeId := Nat

/-- Mirrors `type_info.rs` `TypeProperties` (decoded CodeView property bits). -/
structure TypeProperties where
  packed : Bool
  constructors : Bool
  overlapped_operators : Bool
  is_nested_type : Bool
  contains_nested_types : Bool
  overload_assignment : Bool
  overload_coasting : Bool
  forward_reference : Bool
  scoped_definition : Bool
  has_unique_name : Bool
  sealed : Bool
  hfa : Nat
  intristic_type : Bool
  mocom : Nat
deriving DecidableEq, Repr

/-- Mirrors `TypeProperties` with every flag cleared, for building examples. -/
def noProps : TypeProperties :=
  ⟨false, false, false, false, false, false, false, false, false, false,
   false, 0, false, 0⟩

/-- Mirrors `TypeProperties` with only `forward_reference` set. -/
def fwdProps : TypeProperties :=
  { noProps with forward_reference := true }

/-- Mirrors `type_info.rs` `ClassKind`. -/
inductive ClassKind where
  | Class
  | Struct
  | Interface
deriving DecidableEq, Repr

/-- Mirrors `type_info.rs` `PointerKind`. -/
inductive PointerKind where
  | Near16
  | Far16
  | Huge16
  | BaseSeg
  | BaseVal
  | BaseSegVal
  | BaseAddr
  | BaseSegAddr
  | BaseType
  | BaseSelf
  | Near32
  | Far32
  | Ptr64
deriving DecidableEq, Repr

/-- Mirrors `type_info.rs` `Indirection`. -/
inductive Indirection where
  | Near16
  | Far16
  | Huge16
  | Near32
  | Far32
  | Near64
  | Near128
deriving DecidableEq, Repr

/-- Mirrors `type_info.rs` `PrimitiveKind` (the kinds the converter accepts). -/
inductive PrimitiveKind where
  | NoType
  | Void
  | Char
  | UChar
  | RChar
  | WChar
  | RChar16
  | RChar32
  | I8
  | U8
  | Short
  | UShort
  | I16
  | U16
  | Long
  | ULong
  | I32
  | U32
  | Quad
  | UQuad
  | I64
  | U64
  | Octa
  | UOcta
  | I128
  | U128
  | F16
  | F32
  | F32PP
  | F48
  | F64
  | F80
  | F128
  | Complex32
  | Complex64
  | Complex80
  | Complex128
  | Bool8
  | Bool16
  | Bool32
  | Bool64
  | HRESULT
deriving DecidableEq, Repr

/-- Mirrors `type_info.rs` `VariantValue` (enum literal value tagged by width). -/
inductive VariantValue where
  | U8 (val : Nat)
  | U16 (val : Nat)
  | U32 (val : Nat)
  | U64 (val : Nat)
  | I8 (val : Int)
  | I16 (val : Int)
  | I32 (val : Int)
  | I64 (val : Int)
deriving DecidableEq, Repr

/-- Mirrors `type_info.rs` `PointerAttributes`. -/
structure PointerAttributes where
  kind : PointerKind
  is_volatile : Bool
  is_const : Bool
  is_unaligned : Bool
  is_restrict : Bool
  is_reference : Bool
  size : Nat
  is_mocom : Bool
deriving DecidableEq, Repr

/-- Mirrors `PointerAttributes` for a plain `Ptr64`, for building examples. -/
def ptr64Attrs : PointerAttributes :=
  ⟨.Ptr64, false, false, false, false, false, 8, false⟩

/-- Mirrors `type_info.rs` `Class` node (dependent refs are heap ids). -/
structure ClassNode where
  name : String
  unique_name : Option String
  kind : ClassKind
  properties : TypeProperties
  derived_from : Option NodeId
  fields : List NodeId
  size : Nat
deriving DecidableEq, Repr

/-- Mirrors `type_info.rs` `Union` node. -/
structure UnionNode where
  name : String
  unique_name : Option String
  properties : TypeProperties
  size : Nat
  count : Nat
  fields : List NodeId
deriving DecidableEq, Repr

/-- Mirrors `type_info.rs` `EnumVariant` node. -/
structure EnumVariantNode where
  name : String
  value : VariantValue
deriving DecidableEq, Repr

/-- Mirrors `type_info.rs` `Enumeration` node. -/
structure EnumerationNode where
  name : String
  unique_name : Option String
  underlying_type : NodeId
  variants : List EnumVariantNode
deriving DecidableEq, Repr

/-- Mirrors `type_info.rs` `Pointer` node.  `underlying_type` is `None` when the
pointee failed to resolve (`handle_type(..).ok()`). -/
structure PointerNode where
  underlying_type : Option NodeId
  attributes : PointerAttributes
deriving DecidableEq, Repr

/-- Mirrors `type_info.rs` `Primitive` node. -/
structure PrimitiveNode where
  kind : PrimitiveKind
  indirection : Option Indirection
deriving DecidableEq, Repr

/-- Mirrors `type_info.rs` `Array` node. -/
structure ArrayNode where
  element_type : NodeId
  indexing_type : NodeId
  stride : Option Nat
  size : Nat
  dimensions_bytes : List Nat
  dimensions_elements : List Nat
deriving DecidableEq, Repr

/-- Mirrors `type_info.rs` `Bitfield` node. -/
structure BitfieldNode where
  underlying_type : NodeId
  len : Nat
  position : Nat
deriving DecidableEq, Repr

/-- Mirrors `type_info.rs` `Modifier` node. -/
structure ModifierNode where
  underlying_type : NodeId
  constant : Bool
  volatile : Bool
  unaligned : Bool
deriving DecidableEq, Repr

/-- Mirrors `type_info.rs` `Member` node. -/
structure MemberNode where
  name : String
  underlying_type : NodeId
  offset : Nat
deriving DecidableEq, Repr

/-- Mirrors `type_info.rs` `BaseClass` node. -/
structure BaseClassNode where
  kind : ClassKind
  base_class : NodeId
  offset : Nat
deriving DecidableEq, Repr

/-- Mirrors `type_info.rs` `VirtualBaseClass` node. -/
structure VirtualBaseClassNode where
  direct : Bool
  base_class : NodeId
  base_pointer : NodeId
  base_pointer_offset : Nat
  virtual_base_offset : Nat
deriving DecidableEq, Repr

/-- Mirrors `type_info.rs` `Procedure` (type record) node. -/
structure ProcedureNode where
  return_type : Option NodeId
  argument_list : List NodeId
deriving DecidableEq, Repr

/-- Mirrors `type_info.rs` `MemberFunction` node. -/
structure MemberFunctionNode where
  return_type : NodeId
  class_type : NodeId
  this_pointer_type : Option NodeId
  argument_list : List NodeId
deriving DecidableEq, Repr

/-- Mirrors `type_info.rs` `MethodListEntry` node. -/
structure MethodListEntryNode where
  method_type : NodeId
  vtable_offset : Option Nat
deriving DecidableEq, Repr

/-- Mirrors `type_info.rs` `Nested` node. -/
structure NestedNode where
  name : String
  nested_type : NodeId
deriving DecidableEq, Repr

/-- Mirrors `type_info.rs` `OverloadedMethod` node. -/
structure OverloadedMethodNode where
  name : String
  method_list : NodeId
deriving DecidableEq, Repr

/-- Mirrors `type_info.rs` `Method` node. -/
structure MethodNode where
  name : String
  method_type : NodeId
  vtable_offset : Option Nat
deriving DecidableEq, Repr

/-- Mirrors `type_info.rs` `StaticMember` node. -/
structure StaticMemberNode where
  name : String
  field_type : NodeId
deriving DecidableEq, Repr

/-- Mirrors `type_info.rs` `Type`: the tagged union of resolved type nodes. -/
inductive Ty where
  | Class (c : ClassNode)
  | VirtualBaseClass (v : VirtualBaseClassNode)
  | Union (u : UnionNode)
  | Bitfield (b : BitfieldNode)
  | Enumeration (e : EnumerationNode)
  | EnumVariant (v : EnumVariantNode)
  | Pointer (p : PointerNode)
  | Primitive (p : PrimitiveNode)
  | Array (a : ArrayNode)
  | FieldList (fields : List NodeId)
  | ArgumentList (args : List NodeId)
  | Modifier (m : ModifierNode)
  | Member (m : MemberNode)
  | Procedure (p : ProcedureNode)
  | MemberFunction (m : MemberFunctionNode)
  | MethodList (entries : List MethodListEntryNode)
  | MethodListEntry (e : MethodListEntryNode)
  | Nested (n : NestedNode)
  | OverloadedMethod (m : OverloadedMethodNode)
  | Method (m : MethodNode)
  | StaticMember (s : StaticMemberNode)
  | BaseClass (b : BaseClassNode)
  | VTable (shape : NodeId)
deriving DecidableEq, Repr

/-- The growing `ParsedPdb` state seen by the type-resolution path:
the `types` map (association list, newest binding first, mirroring
`HashMap<TypeIndexNumber, TypeRef>`) and the heap of shared nodes
(`Rc::new` allocations, in allocation order). -/
structure ParsedPdb where
  types : List (TypeIndexNumber × NodeId)
  heap : List Ty
deriving DecidableEq, Repr

/-- The empty `ParsedPdb` (`ParsedPdb::new`). -/
def emptyPdb : ParsedPdb := ⟨[], []⟩

/-- Mirrors `HashMap::get` on the model `types` map. -/
def lookupType : List (TypeIndexNumber × NodeId) → TypeIndexNumber → Option NodeId
  | [], _ => none
  | (k, v) :: rest, idx => if k = idx then some v else lookupType rest idx

/-- Mirrors `Rc::new(RefCell::new(t))`: allocate a fresh shared node. -/
def ParsedPdb.alloc (st : ParsedPdb) (t : Ty) : NodeId × ParsedPdb :=
  (st.heap.length, { st with heap := st.heap ++ [t] })

/-- Mirrors `error.rs` `Error` (ezpdb crate). -/
inductive Err where
  | PdbCrateError (msg : String)
  | MissingDependency (dep : String)
  | Unsupported (what : String)
  | NeedForwardReferenceImplementation
  | UnhandledType (desc : String)
  | IoFailure (msg : String)
  | UnresolvedType (idx : TypeIndexNumber)
deriving DecidableEq, Repr

/-- Outcome of running a fallible, possibly panicking, possibly
non-terminating piece of the resolution engine.  `err` carries the state
at the moment the `Result::Err` was produced (prior mutations persist);
`panic` aborts the process; `diverge` means the fuel ran out. -/
inductive Res (α : Type) : Type where
  | ok (val : α)
  | err (e : Err) (st : ParsedPdb)
  | panic (msg : String)
  | diverge
deriving DecidableEq, Repr

/-- Mirrors `Result::expect(msg)`: turn a recoverable error into a panic. -/
def Res.orPanic {α : Type} : Res α → String → Res α
  | .err _ _, m => .panic m
  | r, _ => r

/-- True exactly on the `err` constructor. -/
def Res.isErr {α : Type} : Res α → Bool
  | .err _ _ => true
  | _ => false

/-! ## Raw records

The `pdb::TypeData` payloads of the external decoder (out of scope for the
core, consumed record-by-record).  Type indices inside records are still
unresolved `TypeIndexNumber`s. -/

/-- Mirrors `pdb::ClassType`. -/
structure RawClass where
  kind : ClassKind
  count : Nat
  properties : TypeProperties
  fields : Option TypeIndexNumber
  derived_from : Option TypeIndexNumber
  vtable_shape : Option TypeIndexNumber
  size : Nat
  name : String
  unique_name : Option String
deriving Repr

/-- Mirrors `pdb::UnionType`. -/
structure RawUnion where
  count : Nat
  properties : TypeProperties
  size : Nat
  fields : TypeIndexNumber
  name : String
  unique_name : Option String
deriving Repr

/-- Mirrors `pdb::EnumerationType`. -/
structure RawEnumeration where
  count : Nat
  properties : TypeProperties
  underlying_type : TypeIndexNumber
  fields : TypeIndexNumber
  name : String
  unique_name : Option String
deriving Repr

/-- Mirrors `pdb::MethodListEntry`. -/
structure RawMethodListEntry where
  method_type : TypeIndexNumber
  vtable_offset : Option Nat
deriving Repr

/-- Mirrors `pdb::TypeData`: a decoded raw type record.  `Unhandled` stands for
every variant the `handle_type_data` matcher does not cover (its `other`
arm panics). -/
inductive TypeData where
  | Class (c : RawClass)
  | Union (u : RawUnion)
  | Bitfield (underlying_type : TypeIndexNumber) (length : Nat) (position : Nat)
  | Array (element_type : TypeIndexNumber) (indexing_type : TypeIndexNumber)
      (stride : Option Nat) (dimensions : List Nat)
  | Enumerate (name : String) (value : VariantValue)
  | Enumeration (e : RawEnumeration)
  | Pointer (underlying_type : TypeIndexNumber) (attributes : PointerAttributes)
      (containing_class : Option TypeIndexNumber)
  | Primitive (kind : PrimitiveKind) (indirection : Option Indirection)
  | FieldList (fields : List TypeData) (continuation : Option TypeIndexNumber)
  | Modifier (underlying_type : TypeIndexNumber) (constant : Bool) (volatile : Bool)
      (unaligned : Bool)
  | Member (field_type : TypeIndexNumber) (offset : Nat) (name : String)
  | ArgumentList (arguments : List TypeIndexNumber)
  | Procedure (return_type : Option TypeIndexNumber) (parameter_count : Nat)
      (argument_list : TypeIndexNumber)
  | MemberFunction (return_type : TypeIndexNumber) (class_type : TypeIndexNumber)
      (this_pointer_type : Option TypeIndexNumber) (argument_list : TypeIndexNumber)
  | MethodList (methods : List RawMethodListEntry)
  | VirtualBaseClass (direct : Bool) (base_class : TypeIndexNumber)
      (base_pointer : TypeIndexNumber) (base_pointer_offset : Nat)
      (virtual_base_offset : Nat)
  | Nested (nested_type : TypeIndexNumber) (name : String)
  | OverloadedMethod (count : Nat) (method_list : TypeIndexNumber) (name : String)
  | Method (method_type : TypeIndexNumber) (vtable_offset : Option Nat) (name : String)
  | StaticMember (field_type : TypeIndexNumber) (name : String)
  | VirtualFunctionTablePointer (table : TypeIndexNumber)
  | BaseClass (kind : ClassKind) (base_class : TypeIndexNumber) (offset : Nat)
  | Unhandled (desc : String)
deriving Repr

/-- The external record finder (`ItemFinder<TypeIndex>` plus the
per-record `parse()` step): `none` when the finder has no record for the
index, `some (.error e)` when `parse()` fails (e.g.
`UnimplementedTypeKind`), `some (.ok raw)` on success. -/
abbrev TypeFinder := TypeIndexNumber → Option (Except String TypeData)

/-! Panic messages used by the resolution path (the strings passed to
`expect` / `panic!` in the source). -/

/-- Mirrors `handle_type`: `type_finder.find(idx).expect(..)`. -/
def msgFailedResolveType : String := "failed to resolve type"

/-- Mirrors `Class` conversion: `.expect("failed to resolve dependent type")`. -/
def msgFailedResolveDependent : String := "failed to resolve dependent type"

/-- Mirrors `Class` conversion: non-FieldList where a FieldList was expected. -/
def msgExpectedFieldList : String := "got an unexpected type when FieldList was expected"

/-- Mirrors `FieldList` continuation (message reused by `Procedure` and
`MemberFunction` argument-list checks in the source). -/
def msgFieldListContinuation : String :=
  "unexpected type returned while getting FieldList continuation"

/-- Dereferencing a dangling `NodeId` (cannot happen for ids handed out
by `ParsedPdb.alloc`; present only to make heap lookups total). -/
def msgInvalidNodeRef : String := "invalid node reference"

/-- Mirrors `handle_type_data`: `panic!("type not handled: ..")`. -/
def msgTypeNotHandled : String := "type not handled"

/-- Mirrors `VirtualBaseClass` conversion: `.expect("failed to resolve underlying type")`. -/
def msgFailedResolveUnderlying : String := "failed to resolve underlying type"

/-- Mirrors `StaticMember`/`VTable` conversion: `.expect("failed to parse dependent type")`. -/
def msgFailedParseDependent : String := "failed to parse dependent type"

/-- Mirrors `Array` conversion: `dimensions.last().unwrap()` on an empty vector. -/
def msgUnwrapNone : String := "called unwrap on a None value"

/-- Rust integer division by zero panic. -/
def msgDivZero : String := "attempt to divide by zero"

/-- Mirrors `Rc::new(RefCell::new(..))` after a successful conversion: allocate
the node built by a `TryFrom` impl, propagating failures. -/
def allocAfter {α : Type} (r : Res (α × ParsedPdb)) (f : α → Ty) :
    Res (NodeId × ParsedPdb) :=
  match r with
  | .ok (node, st1) => .ok (st1.alloc (f node))
  | .err e st1 => .err e st1
  | .panic m => .panic m
  | .diverge => .diverge

mutual

/-- Mirrors `lib.rs` `handle_type`: return the cached node if the index is
already resolved, otherwise find and decode the record, construct the
node, and only then insert the index→node binding into the cache. -/
def handleType : Nat → TypeIndexNumber → TypeFinder → ParsedPdb → Res (NodeId × ParsedPdb)
  | 0, _, _, _ => .diverge
  | fuel+1, idx, finder, st =>
    match lookupType st.types idx with
    | some r => .ok (r, st)
    | none =>
      match finder idx with
      | none => .panic msgFailedResolveType
      | some (.error e) => .err (.PdbCrateError e) st
      | some (.ok raw) =>
        match handleTypeData fuel raw finder st with
        | .ok (r, st1) => .ok (r, { st1 with types := (idx, r) :: st1.types })
        | .err e st1 => .err e st1
        | .panic m => .panic m
        | .diverge => .diverge

termination_by structural f _ _ _ => f

/-- Mirrors `lib.rs` `handle_type_data`: dispatch on the record kind to the
matching variant constructor and wrap the result in a fresh shared
node. -/
def handleTypeData : Nat → TypeData → TypeFinder → ParsedPdb → Res (NodeId × ParsedPdb)
  | 0, _, _, _ => .diverge
  | fuel+1, raw, finder, st =>
    match raw with
    | .Class c => allocAfter (convClass fuel c finder st) Ty.Class
    | .Union u => allocAfter (convUnion fuel u finder st) Ty.Union
    | .Bitfield u len pos => allocAfter (convBitfield fuel u len pos finder st) Ty.Bitfield
    | .Array et it stride dims => allocAfter (convArray fuel et it stride dims finder st) Ty.Array
    | .Enumerate name value => .ok (st.alloc (.EnumVariant ⟨name, value⟩))
    | .Enumeration e => allocAfter (convEnumeration fuel e finder st) Ty.Enumeration
    | .Pointer u attrs cc => allocAfter (convPointer fuel u attrs cc finder st) Ty.Pointer
    | .Primitive kind ind => .ok (st.alloc (.Primitive ⟨kind, ind⟩))
    | .FieldList fs cont => allocAfter (convFieldList fuel fs cont finder st) Ty.FieldList
    | .Modifier u c v ua => allocAfter (convModifier fuel u c v ua finder st) Ty.Modifier
    | .Member ft off name => allocAfter (convMember fuel ft off name finder st) Ty.Member
    | .ArgumentList args => allocAfter (handleTypeIndexes fuel args finder st) Ty.ArgumentList
    | .Procedure ret _pc argl => allocAfter (convProcedure fuel ret argl finder st) Ty.Procedure
    | .MemberFunction ret cls thisPtr argl =>
        allocAfter (convMemberFunction fuel ret cls thisPtr argl finder st) Ty.MemberFunction
    | .MethodList methods => allocAfter (convMethodEntries fuel methods finder st) Ty.MethodList
    | .VirtualBaseClass direct bc bp bpo vbo =>
        allocAfter (convVirtualBaseClass fuel direct bc bp bpo vbo finder st) Ty.VirtualBaseClass
    | .Nested nt name => allocAfter (convNested fuel nt name finder st) Ty.Nested
    | .OverloadedMethod _cnt ml name =>
        allocAfter (convOverloadedMethod fuel ml name finder st) Ty.OverloadedMethod
    | .Method mt vo name => allocAfter (convMethod fuel mt vo name finder st) Ty.Method
    | .StaticMember ft name => allocAfter (convStaticMember fuel ft name finder st) Ty.StaticMember
    | .VirtualFunctionTablePointer table => allocAfter (convVTable fuel table finder st) Ty.VTable
    | .BaseClass kind bc off => allocAfter (convBaseClass fuel kind bc off finder st) Ty.BaseClass
    | .Unhandled _ => .panic msgTypeNotHandled

termination_by structural f _ _ _ => f

/-- Mirrors `TryFrom<FromClass> for Class`: resolve the field list (panicking on
failure), then eagerly resolve `derived_from` when present. -/
def convClass : Nat → RawClass → TypeFinder → ParsedPdb → Res (ClassNode × ParsedPdb)
  | 0, _, _, _ => .diverge
  | fuel+1, c, finder, st =>
    match resolveClassFields fuel c.fields finder st with
    | .ok (flds, st1) =>
      match c.derived_from with
      | none =>
        .ok ({ name := c.name, unique_name := c.unique_name, kind := c.kind,
               properties := c.properties, derived_from := none, fields := flds,
               size := c.size }, st1)
      | some didx =>
        match (handleType fuel didx finder st1).orPanic msgFailedResolveDependent with
        | .ok (dr, st2) =>
          .ok ({ name := c.name, unique_name := c.unique_name, kind := c.kind,
                 properties := c.properties, derived_from := some dr, fields := flds,
                 size := c.size }, st2)
        | .err e st2 => .err e st2
        | .panic m => .panic m
        | .diverge => .diverge
    | .err e st1 => .err e st1
    | .panic m => .panic m
    | .diverge => .diverge

termination_by structural f _ _ _ => f

/-- The `fields.map(..).unwrap_or_default()` part of the `Class`
conversion: resolve the field-list index (`expect` on failure) and clone
the member refs of the resolved `FieldList` (panic on any other kind). -/
def resolveClassFields : Nat → Option TypeIndexNumber → TypeFinder → ParsedPdb →
    Res (List NodeId × ParsedPdb)
  | 0, _, _, _ => .diverge
  | _+1, none, _, st => .ok ([], st)
  | fuel+1, some fidx, finder, st =>
    match (handleType fuel fidx finder st).orPanic msgFailedResolveDependent with
    | .ok (r, st1) =>
      match st1.heap[r]? with
      | some (.FieldList fs) => .ok (fs, st1)
      | some _ => .panic msgExpectedFieldList
      | none => .panic msgInvalidNodeRef
    | .err e st1 => .err e st1
    | .panic m => .panic m
    | .diverge => .diverge

termination_by structural f _ _ _ => f

/-- Mirrors `TryFrom<FromUnion> for Union`: always resolve the field-list index;
use its members only when the declared count is positive. -/
def convUnion : Nat → RawUnion → TypeFinder → ParsedPdb → Res (UnionNode × ParsedPdb)
  | 0, _, _, _ => .diverge
  | fuel+1, u, finder, st =>
    match handleType fuel u.fields finder st with
    | .ok (ft, st1) =>
      let flds :=
        if u.count > 0 then
          match st1.heap[ft]? with
          | some (.FieldList fs) => fs
          | _ => [ft]
        else []
      .ok ({ name := u.name, unique_name := u.unique_name, properties := u.properties,
             size := u.size, count := u.count, fields := flds }, st1)
    | .err e st1 => .err e st1
    | .panic m => .panic m
    | .diverge => .diverge

termination_by structural f _ _ _ => f

/-- Mirrors `TryFrom<FromBitfield> for Bitfield`. -/
def convBitfield : Nat → TypeIndexNumber → Nat → Nat → TypeFinder → ParsedPdb →
    Res (BitfieldNode × ParsedPdb)
  | 0, _, _, _, _, _ => .diverge
  | fuel+1, u, len, pos, finder, st =>
    match handleType fuel u finder st with
    | .ok (r, st1) => .ok ({ underlying_type := r, len := len, position := pos }, st1)
    | .err e st1 => .err e st1
    | .panic m => .panic m
    | .diverge => .diverge

termination_by structural f _ _ _ _ _ => f

/-- Mirrors `TryFrom<FromArray> for Array`: resolve element and indexing types,
take the overall size from the last dimension entry (`unwrap` panics on
an empty dimension vector), leave `dimensions_elements` empty. -/
def convArray : Nat → TypeIndexNumber → TypeIndexNumber → Option Nat → List Nat →
    TypeFinder → ParsedPdb → Res (ArrayNode × ParsedPdb)
  | 0, _, _, _, _, _, _ => .diverge
  | fuel+1, et, it, stride, dims, finder, st =>
    match handleType fuel et finder st with
    | .ok (er, st1) =>
      match handleType fuel it finder st1 with
      | .ok (ir, st2) =>
        match dims.getLast? with
        | none => .panic msgUnwrapNone
        | some sz =>
          .ok ({ element_type := er, indexing_type := ir, stride := stride, size := sz,
                 dimensions_bytes := dims, dimensions_elements := [] }, st2)
      | .err e st2 => .err e st2
      | .panic m => .panic m
      | .diverge => .diverge
    | .err e st1 => .err e st1
    | .panic m => .panic m
    | .diverge => .diverge

termination_by structural f _ _ _ _ _ _ => f

/-- Mirrors `TryFrom<FromEnumeration> for Enumeration`: resolve the underlying
integer type; the variant list is left empty (`// TODO: Variants` in the
source — the `fields` index is never consulted). -/
def convEnumeration : Nat → RawEnumeration → TypeFinder → ParsedPdb →
    Res (EnumerationNode × ParsedPdb)
  | 0, _, _, _ => .diverge
  | fuel+1, e, finder, st =>
    match handleType fuel e.underlying_type finder st with
    | .ok (r, st1) =>
      .ok ({ name := e.name, unique_name := e.unique_name, underlying_type := r,
             variants := [] }, st1)
    | .err er st1 => .err er st1
    | .panic m => .panic m
    | .diverge => .diverge

termination_by structural f _ _ _ => f

/-- Mirrors `TryFrom<FromPointer> for Pointer`: pointee resolution is
best-effort (`.ok()`): a recoverable failure degrades to `None`, but
panics and non-termination still propagate. -/
def convPointer : Nat → TypeIndexNumber → PointerAttributes → Option TypeIndexNumber →
    TypeFinder → ParsedPdb → Res (PointerNode × ParsedPdb)
  | 0, _, _, _, _, _ => .diverge
  | fuel+1, u, attrs, _cc, finder, st =>
    match handleType fuel u finder st with
    | .ok (r, st1) => .ok ({ underlying_type := some r, attributes := attrs }, st1)
    | .err _ st1 => .ok ({ underlying_type := none, attributes := attrs }, st1)
    | .panic m => .panic m
    | .diverge => .diverge

termination_by structural f _ _ _ _ _ => f

/-- Mirrors `TryFrom<FromFieldList> for FieldList`: convert the inline fields
of the record itself in order, then resolve the continuation index (which must
itself be a `FieldList`) and append its fields. -/
def convFieldList : Nat → List TypeData → Option TypeIndexNumber → TypeFinder → ParsedPdb →
    Res (List NodeId × ParsedPdb)
  | 0, _, _, _, _ => .diverge
  | fuel+1, fs, cont, finder, st =>
    match handleFields fuel fs finder st with
    | .ok (own, st1) =>
      match cont with
      | none => .ok (own, st1)
      | some k =>
        match handleType fuel k finder st1 with
        | .ok (rc, st2) =>
          match st2.heap[rc]? with
          | some (.FieldList contFields) => .ok (own ++ contFields, st2)
          | some _ => .panic msgFieldListContinuation
          | none => .panic msgInvalidNodeRef
        | .err e st2 => .err e st2
        | .panic m => .panic m
        | .diverge => .diverge
    | .err e st1 => .err e st1
    | .panic m => .panic m
    | .diverge => .diverge

termination_by structural f _ _ _ _ => f

/-- The `fields.iter().map(handle_type_data).collect::<Result<..>>()`
part of the `FieldList` conversion. -/
def handleFields : Nat → List TypeData → TypeFinder → ParsedPdb →
    Res (List NodeId × ParsedPdb)
  | 0, _, _, _ => .diverge
  | _+1, [], _, st => .ok ([], st)
  | fuel+1, d :: rest, finder, st =>
    match handleTypeData fuel d finder st with
    | .ok (r, st1) =>
      match handleFields fuel rest finder st1 with
      | .ok (rs, st2) => .ok (r :: rs, st2)
      | .err e st2 => .err e st2
      | .panic m => .panic m
      | .diverge => .diverge
    | .err e st1 => .err e st1
    | .panic m => .panic m
    | .diverge => .diverge

termination_by structural f _ _ _ => f

/-- Mirrors `arguments.iter().map(handle_type).collect::<Result<..>>()` (the
`ArgumentList` conversion). -/
def handleTypeIndexes : Nat → List TypeIndexNumber → TypeFinder → ParsedPdb →
    Res (List NodeId × ParsedPdb)
  | 0, _, _, _ => .diverge
  | _+1, [], _, st => .ok ([], st)
  | fuel+1, i :: rest, finder, st =>
    match handleType fuel i finder st with
    | .ok (r, st1) =>
      match handleTypeIndexes fuel rest finder st1 with
      | .ok (rs, st2) => .ok (r :: rs, st2)
      | .err e st2 => .err e st2
      | .panic m => .panic m
      | .diverge => .diverge
    | .err e st1 => .err e st1
    | .panic m => .panic m
    | .diverge => .diverge

termination_by structural f _ _ _ => f

/-- Mirrors `TryFrom<FromModifier> for Modifier`. -/
def convModifier : Nat → TypeIndexNumber → Bool → Bool → Bool → TypeFinder → ParsedPdb →
    Res (ModifierNode × ParsedPdb)
  | 0, _, _, _, _, _, _ => .diverge
  | fuel+1, u, c, v, ua, finder, st =>
    match handleType fuel u finder st with
    | .ok (r, st1) =>
      .ok ({ underlying_type := r, constant := c, volatile := v, unaligned := ua }, st1)
    | .err e st1 => .err e st1
    | .panic m => .panic m
    | .diverge => .diverge

termination_by structural f _ _ _ _ _ _ => f

/-- Mirrors `TryFrom<FromMember> for Member`. -/
def convMember : Nat → TypeIndexNumber → Nat → String → TypeFinder → ParsedPdb →
    Res (MemberNode × ParsedPdb)
  | 0, _, _, _, _, _ => .diverge
  | fuel+1, ft, off, name, finder, st =>
    match handleType fuel ft finder st with
    | .ok (r, st1) => .ok ({ name := name, underlying_type := r, offset := off }, st1)
    | .err e st1 => .err e st1
    | .panic m => .panic m
    | .diverge => .diverge

termination_by structural f _ _ _ _ _ => f

/-- Mirrors `Option<TypeIndex>` resolution via `.map(handle_type).transpose()?`. -/
def resolveOptIndex : Nat → Option TypeIndexNumber → TypeFinder → ParsedPdb →
    Res (Option NodeId × ParsedPdb)
  | 0, _, _, _ => .diverge
  | _+1, none, _, st => .ok (none, st)
  | fuel+1, some i, finder, st =>
    match handleType fuel i finder st with
    | .ok (r, st1) => .ok (some r, st1)
    | .err e st1 => .err e st1
    | .panic m => .panic m
    | .diverge => .diverge

termination_by structural f _ _ _ => f

/-- Mirrors `TryFrom<FromProcedure> for Procedure`: optional return type, then
the argument list, which must resolve to an `ArgumentList` node. -/
def convProcedure : Nat → Option TypeIndexNumber → TypeIndexNumber → TypeFinder → ParsedPdb →
    Res (ProcedureNode × ParsedPdb)
  | 0, _, _, _, _ => .diverge
  | fuel+1, ret, argl, finder, st =>
    match resolveOptIndex fuel ret finder st with
    | .ok (rnode, st1) =>
      match handleType fuel argl finder st1 with
      | .ok (ar, st2) =>
        match st2.heap[ar]? with
        | some (.ArgumentList args) =>
          .ok ({ return_type := rnode, argument_list := args }, st2)
        | some _ => .panic msgFieldListContinuation
        | none => .panic msgInvalidNodeRef
      | .err e st2 => .err e st2
      | .panic m => .panic m
      | .diverge => .diverge
    | .err e st1 => .err e st1
    | .panic m => .panic m
    | .diverge => .diverge

termination_by structural f _ _ _ _ => f

/-- Mirrors `TryFrom<FromMemberFunction> for MemberFunction`. -/
def convMemberFunction : Nat → TypeIndexNumber → TypeIndexNumber → Option TypeIndexNumber →
    TypeIndexNumber → TypeFinder → ParsedPdb → Res (MemberFunctionNode × ParsedPdb)
  | 0, _, _, _, _, _, _ => .diverge
  | fuel+1, ret, cls, thisPtr, argl, finder, st =>
    match handleType fuel ret finder st with
    | .ok (rr, st1) =>
      match handleType fuel cls finder st1 with
      | .ok (cr, st2) =>
        match resolveOptIndex fuel thisPtr finder st2 with
        | .ok (tr, st3) =>
          match handleType fuel argl finder st3 with
          | .ok (ar, st4) =>
            match st4.heap[ar]? with
            | some (.ArgumentList args) =>
              .ok ({ return_type := rr, class_type := cr, this_pointer_type := tr,
                     argument_list := args }, st4)
            | some _ => .panic msgFieldListContinuation
            | none => .panic msgInvalidNodeRef
          | .err e st4 => .err e st4
          | .panic m => .panic m
          | .diverge => .diverge
        | .err e st3 => .err e st3
        | .panic m => .panic m
        | .diverge => .diverge
      | .err e st2 => .err e st2
      | .panic m => .panic m
      | .diverge => .diverge
    | .err e st1 => .err e st1
    | .panic m => .panic m
    | .diverge => .diverge

termination_by structural f _ _ _ _ _ _ => f

/-- Mirrors `TryFrom<FromMethodList> for MethodList`: convert each entry via
`TryFrom<FromMethodListEntry>`, collecting the first error. -/
def convMethodEntries : Nat → List RawMethodListEntry → TypeFinder → ParsedPdb →
    Res (List MethodListEntryNode × ParsedPdb)
  | 0, _, _, _ => .diverge
  | _+1, [], _, st => .ok ([], st)
  | fuel+1, m :: rest, finder, st =>
    match handleType fuel m.method_type finder st with
    | .ok (r, st1) =>
      match convMethodEntries fuel rest finder st1 with
      | .ok (rs, st2) =>
        .ok (({ method_type := r, vtable_offset := m.vtable_offset } : MethodListEntryNode)
              :: rs, st2)
      | .err e st2 => .err e st2
      | .panic m2 => .panic m2
      | .diverge => .diverge
    | .err e st1 => .err e st1
    | .panic m2 => .panic m2
    | .diverge => .diverge

termination_by structural f _ _ _ => f

/-- Mirrors `TryFrom<FromVirtualBaseClass> for VirtualBaseClass` (both
resolutions use `expect`). -/
def convVirtualBaseClass : Nat → Bool → TypeIndexNumber → TypeIndexNumber → Nat → Nat →
    TypeFinder → ParsedPdb → Res (VirtualBaseClassNode × ParsedPdb)
  | 0, _, _, _, _, _, _, _ => .diverge
  | fuel+1, direct, bc, bp, bpo, vbo, finder, st =>
    match (handleType fuel bc finder st).orPanic msgFailedResolveUnderlying with
    | .ok (bcr, st1) =>
      match (handleType fuel bp finder st1).orPanic msgFailedResolveUnderlying with
      | .ok (bpr, st2) =>
        .ok ({ direct := direct, base_class := bcr, base_pointer := bpr,
               base_pointer_offset := bpo, virtual_base_offset := vbo }, st2)
      | .err e st2 => .err e st2
      | .panic m => .panic m
      | .diverge => .diverge
    | .err e st1 => .err e st1
    | .panic m => .panic m
    | .diverge => .diverge

termination_by structural f _ _ _ _ _ _ _ => f

/-- Mirrors `TryFrom<FromNested> for Nested`. -/
def convNested : Nat → TypeIndexNumber → String → TypeFinder → ParsedPdb →
    Res (NestedNode × ParsedPdb)
  | 0, _, _, _, _ => .diverge
  | fuel+1, nt, name, finder, st =>
    match handleType fuel nt finder st with
    | .ok (r, st1) => .ok ({ name := name, nested_type := r }, st1)
    | .err e st1 => .err e st1
    | .panic m => .panic m
    | .diverge => .diverge

termination_by structural f _ _ _ _ => f

/-- Mirrors `TryFrom<FromOverloadedMethod> for OverloadedMethod`. -/
def convOverloadedMethod : Nat → TypeIndexNumber → String → TypeFinder → ParsedPdb →
    Res (OverloadedMethodNode × ParsedPdb)
  | 0, _, _, _, _ => .diverge
  | fuel+1, ml, name, finder, st =>
    match handleType fuel ml finder st with
    | .ok (r, st1) => .ok ({ name := name, method_list := r }, st1)
    | .err e st1 => .err e st1
    | .panic m => .panic m
    | .diverge => .diverge

termination_by structural f _ _ _ _ => f

/-- Mirrors `TryFrom<FromMethod> for Method`. -/
def convMethod : Nat → TypeIndexNumber → Option Nat → String → TypeFinder → ParsedPdb →
    Res (MethodNode × ParsedPdb)
  | 0, _, _, _, _, _ => .diverge
  | fuel+1, mt, vo, name, finder, st =>
    match handleType fuel mt finder st with
    | .ok (r, st1) => .ok ({ name := name, method_type := r, vtable_offset := vo }, st1)
    | .err e st1 => .err e st1
    | .panic m => .panic m
    | .diverge => .diverge

termination_by structural f _ _ _ _ _ => f

/-- Mirrors `TryFrom<FromStaticMember> for StaticMember` (`expect` on failure). -/
def convStaticMember : Nat → TypeIndexNumber → String → TypeFinder → ParsedPdb →
    Res (StaticMemberNode × ParsedPdb)
  | 0, _, _, _, _ => .diverge
  | fuel+1, ft, name, finder, st =>
    match (handleType fuel ft finder st).orPanic msgFailedParseDependent with
    | .ok (r, st1) => .ok ({ name := name, field_type := r }, st1)
    | .err e st1 => .err e st1
    | .panic m => .panic m
    | .diverge => .diverge

termination_by structural f _ _ _ _ => f

/-- Mirrors `TryFrom<FromVirtualFunctionTablePointer> for VTable` (`expect` on
failure). -/
def convVTable : Nat → TypeIndexNumber → TypeFinder → ParsedPdb → Res (NodeId × ParsedPdb)
  | 0, _, _, _ => .diverge
  | fuel+1, table, finder, st =>
    match (handleType fuel table finder st).orPanic msgFailedParseDependent with
    | .ok (r, st1) => .ok (r, st1)
    | .err e st1 => .err e st1
    | .panic m => .panic m
    | .diverge => .diverge

termination_by structural f _ _ _ => f

/-- Mirrors `TryFrom<FromBaseClass> for BaseClass` (plain `?` propagation). -/
def convBaseClass : Nat → ClassKind → TypeIndexNumber → Nat → TypeFinder → ParsedPdb →
    Res (BaseClassNode × ParsedPdb)
  | 0, _, _, _, _, _ => .diverge
  | fuel+1, kind, bc, off, finder, st =>
    match handleType fuel bc finder st with
    | .ok (r, st1) => .ok ({ kind := kind, base_class := r, offset := off }, st1)
    | .err e st1 => .err e st1
    | .panic m => .panic m
    | .diverge => .diverge

termination_by structural f _ _ _ _ _ => f
end

/-! ## Size/Layout engine (`Typed::type_size`, `Typed::on_complete`) -/

/-- Mirrors `Typed for Type`, `EnumVariant` arm panic message. -/
def msgSizeEnumVariant : String := "type_size() invoked for EnumVariant"

/-- Mirrors `Typed for Type`, `Member` arm panic message. -/
def msgSizeMember : String := "type_size() invoked for Member"

/-- Mirrors `Typed for Type`, `ArgumentList` arm panic message. -/
def msgSizeArgumentList : String := "type_size() invoked for ArgumentList"

/-- Mirrors `Typed for Type`, `Procedure` arm panic message. -/
def msgSizeProcedure : String := "type_size() invoked for Procedure"

/-- Mirrors `Typed for Type`, `MemberFunction` arm panic message. -/
def msgSizeMemberFunction : String := "type_size() invoked for MemberFunction"

/-- Mirrors `Typed for Type`, `MethodList` arm panic message. -/
def msgSizeMethodList : String := "type_size() invoked for MethodList"

/-- Mirrors `Typed for Type`, `MethodListEntry` arm panic message. -/
def msgSizeMethodListEntry : String := "type_size() invoked for MethodListEntry"

/-- Mirrors `Typed for Type`, `VirtualBaseClass` arm panic message. -/
def msgSizeVirtualBaseClass : String := "type_size() invoked for VirtualBaseClass"

/-- Mirrors `Typed for Type`, `Nested` arm panic message. -/
def msgSizeNested : String := "type_size() invoked for Nested"

/-- Mirrors `Typed for Type`, `OverloadedMethod` arm panic message (the source
reuses this string for the `Method` arm as well). -/
def msgSizeOverloadedMethod : String := "type_size() invoked for overloaded method"

/-- Mirrors `Typed for Type`, `StaticMember` arm panic message. -/
def msgSizeStaticMember : String := "type_size() invoked for StaticMember"

/-- Mirrors `Typed for Type`, `VTable` arm panic message. -/
def msgSizeVTable : String := "type_size() invoked for VTable"

/-- Mirrors `Typed for Type`, `BaseClass` arm panic message. -/
def msgSizeBaseClass : String := "type_size() invoked for BaseClass"

/-- Mirrors `Typed for PointerKind`, unsupported-kind panic message. -/
def msgSizePointerKind : String := "type_size() not implemented for pointer type"

/-- Mirrors `Typed for PrimitiveKind`, unhandled-kind panic message. -/
def msgSizePrimitive : String := "type size not handled for type"

/-- Mirrors `Typed for PointerKind`: fixed size table; the `Base*` kinds have no
defined size and panic. -/
def pointerKindSize : PointerKind → Res Nat
  | .Near16 | .Far16 | .Huge16 => .ok 2
  | .Near32 | .Far32 => .ok 4
  | .Ptr64 => .ok 8
  | _ => .panic msgSizePointerKind

/-- Mirrors `Typed for Indirection`: fixed size table (total; note the source
maps `Near128` to 8). -/
def indirectionSize : Indirection → Nat
  | .Near16 | .Far16 | .Huge16 => 2
  | .Near32 | .Far32 => 4
  | .Near64 => 8
  | .Near128 => 8

/-- Mirrors `Typed for PrimitiveKind`: fixed size table; kinds outside the table
(`F48`, `F80`, `F128`, the `Complex*` family) panic. -/
def primitiveKindSize : PrimitiveKind → Res Nat
  | .NoType | .Void => .ok 0
  | .Char | .UChar | .RChar | .I8 | .U8 | .Bool8 => .ok 1
  | .RChar16 | .WChar | .Short | .UShort | .I16 | .U16 | .F16 | .Bool16 => .ok 2
  | .RChar32 | .Long | .ULong | .I32 | .U32 | .F32 | .F32PP | .Bool32 | .HRESULT => .ok 4
  | .Quad | .UQuad | .I64 | .U64 | .F64 | .Bool64 => .ok 8
  | .Octa | .UOcta | .I128 | .U128 => .ok 16
  | _ => .panic msgSizePrimitive

/-- Mirrors `Typed for Primitive`: an indirected primitive has the pointer
size of the indirection, otherwise the native size of the kind. -/
def primitiveTypeSize (p : PrimitiveNode) : Res Nat :=
  match p.indirection with
  | some i => .ok (indirectionSize i)
  | none => primitiveKindSize p.kind

/-- The forward-reference scan in `Class::type_size`: walk the values of
`pdb.types` looking for a non-forward-reference `Class` node with the
same `unique_name`.  (`try_borrow` failures are not modelled: at
`type_size` query time no conflicting mutable borrow is outstanding, and
the only node borrowed during the scan is the forward-reference stub
itself, which the filter rejects anyway.) -/
def findClassImpl (uname : Option String) :
    List (TypeIndexNumber × NodeId) → List Ty → Option ClassNode
  | [], _ => none
  | (_, r) :: rest, heap =>
    match heap[r]? with
    | some (.Class cl) =>
      if cl.properties.forward_reference = false ∧ cl.unique_name = uname then some cl
      else findClassImpl uname rest heap
    | _ => findClassImpl uname rest heap

/-- Mirrors `Typed for Class`: a forward-reference stub reports the size of the
real definition (found by `unique_name` among all cached nodes) when one
exists, and falls back to its own declared `size` field (after logging)
otherwise; a non-stub reports its declared `size`. -/
def classTypeSize : Nat → ClassNode → ParsedPdb → Res Nat
  | 0, _, _ => .diverge
  | fuel+1, c, st =>
    if c.properties.forward_reference then
      match findClassImpl c.unique_name st.types st.heap with
      | some impl => classTypeSize fuel impl st
      | none => .ok c.size
    else .ok c.size

/-- The forward-reference scan in `Union::type_size` (same shape as the
class scan, restricted to `Union` nodes). -/
def findUnionImpl (uname : Option String) :
    List (TypeIndexNumber × NodeId) → List Ty → Option UnionNode
  | [], _ => none
  | (_, r) :: rest, heap =>
    match heap[r]? with
    | some (.Union un) =>
      if un.properties.forward_reference = false ∧ un.unique_name = uname then some un
      else findUnionImpl uname rest heap
    | _ => findUnionImpl uname rest heap

/-- Mirrors `Typed for Union`: same forward-reference policy as `Class`. -/
def unionTypeSize : Nat → UnionNode → ParsedPdb → Res Nat
  | 0, _, _ => .diverge
  | fuel+1, u, st =>
    if u.properties.forward_reference then
      match findUnionImpl u.unique_name st.types st.heap with
      | some impl => unionTypeSize fuel impl st
      | none => .ok u.size
    else .ok u.size

mutual

/-- Mirrors `Typed for Type`: the `type_size` dispatch over node kinds.
`Bitfield`, `Enumeration` and `Modifier` delegate to their underlying
node; `Pointer` uses only the table for its kind; `Array` returns its
precomputed size; the unsized kinds panic. -/
def typeSize : Nat → Ty → ParsedPdb → Res Nat
  | 0, _, _ => .diverge
  | fuel+1, t, st =>
    match t with
    | .Class c => classTypeSize fuel c st
    | .Union u => unionTypeSize fuel u st
    | .Bitfield b =>
      match st.heap[b.underlying_type]? with
      | some u => typeSize fuel u st
      | none => .panic msgInvalidNodeRef
    | .Enumeration e =>
      match st.heap[e.underlying_type]? with
      | some u => typeSize fuel u st
      | none => .panic msgInvalidNodeRef
    | .Pointer p => pointerKindSize p.attributes.kind
    | .Primitive p => primitiveTypeSize p
    | .Array a => .ok a.size
    | .FieldList fields => sumFieldSizes fuel fields st 0
    | .Modifier m =>
      match st.heap[m.underlying_type]? with
      | some u => typeSize fuel u st
      | none => .panic msgInvalidNodeRef
    | .EnumVariant _ => .panic msgSizeEnumVariant
    | .Member _ => .panic msgSizeMember
    | .ArgumentList _ => .panic msgSizeArgumentList
    | .Procedure _ => .panic msgSizeProcedure
    | .MemberFunction _ => .panic msgSizeMemberFunction
    | .MethodList _ => .panic msgSizeMethodList
    | .MethodListEntry _ => .panic msgSizeMethodListEntry
    | .VirtualBaseClass _ => .panic msgSizeVirtualBaseClass
    | .Nested _ => .panic msgSizeNested
    | .OverloadedMethod _ => .panic msgSizeOverloadedMethod
    | .Method _ => .panic msgSizeOverloadedMethod
    | .StaticMember _ => .panic msgSizeStaticMember
    | .VTable _ => .panic msgSizeVTable
    | .BaseClass _ => .panic msgSizeBaseClass

termination_by structural f _ _ => f

/-- The `FieldList` arm fold, `fold(0, |acc, field| acc + field.type_size(pdb))`. -/
def sumFieldSizes : Nat → List NodeId → ParsedPdb → Nat → Res Nat
  | 0, _, _, _ => .diverge
  | _+1, [], _, acc => .ok acc
  | fuel+1, r :: rest, st, acc =>
    match st.heap[r]? with
    | some t =>
      match typeSize fuel t st with
      | .ok s => sumFieldSizes fuel rest st (acc + s)
      | .err e st1 => .err e st1
      | .panic m => .panic m
      | .diverge => .diverge
    | none => .panic msgInvalidNodeRef

termination_by structural f _ _ _ => f

end

/-- Mirrors `node.borrow().type_size(pdb)` through a shared reference. -/
def derefTypeSize (fuel : Nat) (r : NodeId) (st : ParsedPdb) : Res Nat :=
  match st.heap[r]? with
  | some t => typeSize fuel t st
  | none => .panic msgInvalidNodeRef

/-- The `for byte_size in &self.dimensions_bytes` loop of
`Array::on_complete`: divide each raw byte total by the running size
(Rust `/` panics when the divisor is zero) and feed the quotient forward
as the next divisor. -/
def chainDiv (running : Nat) : List Nat → Res (List Nat)
  | [] => .ok []
  | b :: rest =>
    if running = 0 then .panic msgDivZero
    else
      match chainDiv (b / running) rest with
      | .ok l => .ok ((b / running) :: l)
      | .err e st => .err e st
      | .panic m => .panic m
      | .diverge => .diverge

/-- Mirrors `Array::on_complete`: clear the derived dimension list; a zero
overall size yields `[0]` immediately; otherwise seed the running size
with the `type_size` of the element type and run the chained division. -/
def arrayOnComplete (fuel : Nat) (a : ArrayNode) (st : ParsedPdb) : Res ArrayNode :=
  if a.size = 0 then .ok { a with dimensions_elements := [0] }
  else
    match derefTypeSize fuel a.element_type st with
    | .ok es =>
      match chainDiv es a.dimensions_bytes with
      | .ok l => .ok { a with dimensions_elements := l }
      | .err e st1 => .err e st1
      | .panic m => .panic m
      | .diverge => .diverge
    | .err e st1 => .err e st1
    | .panic m => .panic m
    | .diverge => .diverge

/-- Modelled from the spec: the chained-division rule of §4.3 — start
with `running_size` equal to the size of the element type, and for each raw
per-dimension byte total in order emit `byte_total / running_size` and
use that quotient as the next `running_size`. -/
def specChainedDivision (running : Nat) : List Nat → List Nat
  | [] => []
  | b :: rest => (b / running) :: specChainedDivision (b / running) rest

/-! ## Symbol/module mapping (`handle_symbol` and the symbol loops)

The `PublicSymbol`, `Procedure` and `CompilerInfo` conversions are
infallible field-for-field restructures whose only interesting inputs
(RVA translation through the address map, the `format!`-derived
signature string) come from the external decoder; they are modelled as
already-converted payloads.  The fallible conversions — record
`parse()`, `BuildInfo` (needs the ID finder) and `Data` (needs the
resolved type map) — are modelled faithfully. -/

/-- Mirrors `symbol_types.rs` `PublicSymbol` (converted form). -/
structure PublicSymbolModel where
  name : String
  is_code : Bool
  is_function : Bool
  is_managed : Bool
  is_msil : Bool
  offset : Option Nat
deriving DecidableEq, Repr

/-- Mirrors `symbol_types.rs` `Procedure` (converted form). -/
structure ProcedureModel where
  name : String
  signature : Option String
  type_index : TypeIndexNumber
  offset : Option Nat
  len : Nat
  is_global : Bool
  is_dpc : Bool
  prologue_end : Nat
  epilogue_start : Nat
deriving DecidableEq, Repr

/-- Mirrors `symbol_types.rs` `Data` (converted form); `ty` is the shared node
the type index of the data symbol resolved to. -/
structure DataSym where
  name : String
  is_global : Bool
  is_managed : Bool
  ty : NodeId
  offset : Option Nat
deriving DecidableEq, Repr

/-- Mirrors `symbol_types.rs` `BuildInfo` (converted form). -/
structure BuildInfoSym where
  arguments : List String
deriving DecidableEq, Repr

/-- Mirrors `symbol_types.rs` `CompilerInfo` (converted form; the flag and
version payloads are plain copies and are summarized by the fields the
claims can observe). -/
structure CompilerInfoSym where
  language : String
  cpu_type : String
  version_string : String
deriving DecidableEq, Repr

/-- Mirrors `pdb::DataSymbol`: the raw data-symbol record (offset already
RVA-translated by the external address map). -/
structure RawData where
  name : String
  global : Bool
  managed : Bool
  type_index : TypeIndexNumber
  offset : Option Nat
deriving DecidableEq, Repr

/-- Mirrors `pdb::IdData` payloads the `BuildInfo` conversion inspects. -/
inductive IdData where
  | BuildInfoPayload (argument_ids : List Nat)
  | StrPayload (s : String)
  | OtherPayload (desc : String)
deriving DecidableEq, Repr

/-- The external `IdFinder`. -/
abbrev IdFinderModel := Nat → Option IdData

/-- Mirrors `BuildInfo` conversion: `.expect("failed to parse ID")`. -/
def msgFailedParseId : String := "failed to parse ID"

/-- Mirrors `BuildInfo` conversion: `panic!("unexpected ID type : ..")`. -/
def msgUnexpectedIdType : String := "unexpected ID type"

/-- Mirrors `unreachable!()` in the `BuildInfo` conversion. -/
def msgUnreachable : String := "internal error: entered unreachable code"

/-- Mirrors `Error::MissingDependency("IdFinder")` payload. -/
def msgIdFinderDep : String := "IdFinder"

/-- Mirrors `pdb::Error` raised by `IdFinder::find` on a missing id. -/
def msgIdNotFound : String := "id not found"

/-- Outcome of a symbol-phase conversion: `Result` plus panics.  (No
state is carried: every fallible symbol conversion fails before mutating
the output model.) -/
inductive SymRes (α : Type) : Type where
  | ok (val : α)
  | err (e : Err)
  | panic (msg : String)
deriving DecidableEq, Repr

/-- First pass of the `BuildInfo` argument conversion:
`finder.find(*id).expect("failed to parse ID")` over the id list. -/
def findIds (f : IdFinderModel) : List Nat → SymRes (List IdData)
  | [] => .ok []
  | id :: rest =>
    match f id with
    | none => .panic msgFailedParseId
    | some d =>
      match findIds f rest with
      | .ok ds => .ok (d :: ds)
      | .err e => .err e
      | .panic m => .panic m

/-- Second pass: every found id must be a string payload. -/
def parseIdStrings : List IdData → SymRes (List String)
  | [] => .ok []
  | .StrPayload s :: rest =>
    match parseIdStrings rest with
    | .ok ss => .ok (s :: ss)
    | .err e => .err e
    | .panic m => .panic m
  | _ :: _ => .panic msgUnexpectedIdType

/-- Mirrors `TryFrom<(&BuildInfoSymbol, Option<&IdFinder>)> for BuildInfo`. -/
def convBuildInfo (symId : Nat) (idFinder : Option IdFinderModel) : SymRes BuildInfoSym :=
  match idFinder with
  | none => .err (.MissingDependency msgIdFinderDep)
  | some f =>
    match f symId with
    | none => .err (.PdbCrateError msgIdNotFound)
    | some (.BuildInfoPayload argIds) =>
      match findIds f argIds with
      | .ok ids =>
        match parseIdStrings ids with
        | .ok args => .ok { arguments := args }
        | .err e => .err e
        | .panic m => .panic m
      | .err e => .err e
      | .panic m => .panic m
    | some _ => .panic msgUnreachable

/-- Mirrors `TryFrom<(DataSymbol, usize, Option<&AddressMap>, &HashMap<..>)> for
Data`: the type index of the symbol must be present in the resolved type map,
otherwise `UnresolvedType(index)`. -/
def convData (d : RawData) (types : List (TypeIndexNumber × NodeId)) : SymRes DataSym :=
  match lookupType types d.type_index with
  | none => .err (.UnresolvedType d.type_index)
  | some r =>
    .ok { name := d.name, is_global := d.global, is_managed := d.managed, ty := r,
          offset := d.offset }

/-- Mirrors `pdb::SymbolData` variants distinguished by `handle_symbol` (the
`other` arm covers everything it ignores). -/
inductive SymbolData where
  | Public (p : PublicSymbolModel)
  | Procedure (p : ProcedureModel)
  | BuildInfo (symId : Nat)
  | CompileFlags (ci : CompilerInfoSym)
  | AnnotReference
  | Data (d : RawData)
  | Other (desc : String)
deriving DecidableEq, Repr

/-- A symbol as it comes off the stream: `sym.parse()` may fail. -/
abbrev RawSym := Except String SymbolData

/-- The symbol-side output accumulated on `ParsedPdb` (symbol vectors
plus `assembly_info`). -/
structure SymOut where
  public_symbols : List PublicSymbolModel
  procedures : List ProcedureModel
  global_data : List DataSym
  build_info : Option BuildInfoSym
  compiler_info : Option CompilerInfoSym
deriving DecidableEq, Repr

/-- The initial (empty) symbol output. -/
def emptySymOut : SymOut := ⟨[], [], [], none, none⟩

/-- Mirrors `lib.rs` `handle_symbol`: convert one decoded symbol and attach it
to the output model.  Errors returned here are treated as non-fatal by
the callers. -/
def handleSymbol (raw : RawSym) (types : List (TypeIndexNumber × NodeId))
    (idFinder : Option IdFinderModel) (out : SymOut) : SymRes SymOut :=
  match raw with
  | .error e => .err (.PdbCrateError e)
  | .ok (.Public p) => .ok { out with public_symbols := out.public_symbols ++ [p] }
  | .ok (.Procedure p) => .ok { out with procedures := out.procedures ++ [p] }
  | .ok (.BuildInfo symId) =>
    match convBuildInfo symId idFinder with
    | .ok bi => .ok { out with build_info := some bi }
    | .err e => .err e
    | .panic m => .panic m
  | .ok (.CompileFlags ci) => .ok { out with compiler_info := some ci }
  | .ok .AnnotReference => .ok out
  | .ok (.Data d) =>
    match convData d types with
    | .ok s =>
      if s.is_global then .ok { out with global_data := out.global_data ++ [s] }
      else .ok out
    | .err e => .err e
    | .panic m => .panic m
  | .ok (.Other _) => .ok out

/-- The symbol loops in `parse_pdb`: each symbol is handled with
`if let Err(e) = handle_symbol(..) { /* log */ }` — a recoverable error
drops that symbol and continues with the next one. -/
def processSymbols (types : List (TypeIndexNumber × NodeId))
    (idFinder : Option IdFinderModel) : List RawSym → SymOut → SymRes SymOut
  | [], out => .ok out
  | raw :: rest, out =>
    match handleSymbol raw types idFinder out with
    | .ok out1 => processSymbols types idFinder rest out1
    | .err _ => processSymbols types idFinder rest out
    | .panic m => .panic m

/-! ## Claims -/

/-- Claim C8: for every Array node whose overall size field is 0,
`on_complete` sets `dimensions_elements` to exactly `[0]`, regardless of
the contents of `dimensions_bytes`, and performs no division. -/
theorem c8_zero_size_array (fuel : Nat) (a : ArrayNode) (st : ParsedPdb)
    (hsz : a.size = 0) :
    arrayOnComplete fuel a st = .ok { a with dimensions_elements := [0] } := by
  unfold arrayOnComplete
  simp [hsz]

/-- A zero-size array whose `dimensions_bytes` is deliberately junk. -/
def arrC8 : ArrayNode := ⟨0, 1, none, 0, [5, 7], []⟩

/-- Witness for C8 at a concrete zero-size array. -/
theorem c8_zero_size_array_witness :
    arrayOnComplete 1 arrC8 emptyPdb = .ok { arrC8 with dimensions_elements := [0] } :=
  c8_zero_size_array 1 arrC8 emptyPdb rfl

/-- The concrete array example of the spec: element size 4 (a 32-bit int at
node 0), `dimensions_bytes = [40, 120]`, overall size 120. -/
def arrC9 : ArrayNode := ⟨0, 1, none, 120, [40, 120], []⟩

/-- A type cache holding the 32-bit element type (node 0) and a 64-bit
indexing type (node 1). -/
def stC9 : ParsedPdb := ⟨[(5, 0), (6, 1)], [.Primitive ⟨.I32, none⟩, .Primitive ⟨.U64, none⟩]⟩

/-- Counterexample for C9: on the example given in the spec the chained division
yields `[10, 12]` (40/4 = 10, then 120/10 = 12), not `[10, 3]`. -/
theorem c9_counterexample :
    arrayOnComplete 2 arrC9 stC9 = .ok { arrC9 with dimensions_elements := [10, 12] } ∧
    Res.ok { arrC9 with dimensions_elements := [10, 12] } ≠
      (Res.ok { arrC9 with dimensions_elements := [10, 3] } : Res ArrayNode) :=
  ⟨by decide, by decide⟩

/-- Claim C9 (amended): for an Array node whose element type has size 4
and whose `dimensions_bytes` is `[40, 120]` (with nonzero overall size),
`on_complete` yields `dimensions_elements = [10, 12]`. -/
theorem c9_amended (fuel : Nat) (a : ArrayNode) (st : ParsedPdb)
    (hsz : a.size ≠ 0) (hdims : a.dimensions_bytes = [40, 120])
    (hes : derefTypeSize fuel a.element_type st = .ok 4) :
    arrayOnComplete fuel a st = .ok { a with dimensions_elements := [10, 12] } := by
  unfold arrayOnComplete
  rw [if_neg hsz, hes, hdims]
  simp [chainDiv]

/-- Witness for the amended C9 at the concrete example from the spec. -/
theorem c9_amended_witness :
    arrayOnComplete 2 arrC9 stC9 = .ok { arrC9 with dimensions_elements := [10, 12] } :=
  c9_amended 2 arrC9 stC9 (by decide) rfl rfl

/-- A successful run of the `on_complete` division loop computes exactly
the chained-division sequence stated in the spec. -/
theorem chainDiv_ok (l : List Nat) :
    ∀ (running : Nat) (out : List Nat),
      chainDiv running l = .ok out → out = specChainedDivision running l := by
  induction l with
  | nil =>
    intro running out h
    simp only [chainDiv] at h
    cases h
    rfl
  | cons b rest ih =>
    intro running out h
    simp only [chainDiv] at h
    by_cases hr : running = 0
    · rw [if_pos hr] at h
      cases h
    · rw [if_neg hr] at h
      cases hrec : chainDiv (b / running) rest with
      | ok l2 =>
        rw [hrec] at h
        cases h
        simp only [specChainedDivision]
        rw [ih (b / running) l2 hrec]
      | err e st => rw [hrec] at h; cases h
      | panic m => rw [hrec] at h; cases h
      | diverge => rw [hrec] at h; cases h

/-- Claim C3: for every Array node with nonzero overall size whose
element type has `type_size` equal to `es` and whose completion succeeds,
`on_complete` rewrites `dimensions_elements` to exactly the chained
division of `dimensions_bytes`: each entry is the raw byte total divided
by the running size, the quotient becoming the next running size, seeded
with `es`. -/
theorem c3_array_dimension_inference (fuel : Nat) (a : ArrayNode) (st : ParsedPdb)
    (es : Nat) (a2 : ArrayNode)
    (hsz : a.size ≠ 0)
    (hes : derefTypeSize fuel a.element_type st = .ok es)
    (hres : arrayOnComplete fuel a st = .ok a2) :
    a2 = { a with dimensions_elements := specChainedDivision es a.dimensions_bytes } := by
  unfold arrayOnComplete at hres
  rw [if_neg hsz, hes] at hres
  dsimp only at hres
  cases hdiv : chainDiv es a.dimensions_bytes with
  | ok l =>
    rw [hdiv] at hres
    cases hres
    rw [chainDiv_ok a.dimensions_bytes es l hdiv]
  | err e st1 => rw [hdiv] at hres; cases hres
  | panic m => rw [hdiv] at hres; cases hres
  | diverge => rw [hdiv] at hres; cases hres

/-- A three-dimensional array (element size 2 at node 0) exercising the
chained division: 8/2 = 4, 12/4 = 3, 6/3 = 2. -/
def arrC3 : ArrayNode := ⟨0, 0, none, 6, [8, 12, 6], []⟩

/-- A cache holding the 16-bit element type of `arrC3`. -/
def stC3 : ParsedPdb := ⟨[(5, 0)], [.Primitive ⟨.U16, none⟩]⟩

/-- Witness for C3 at a concrete three-dimensional array. -/
theorem c3_array_dimension_inference_witness :
    ({ arrC3 with dimensions_elements := [4, 3, 2] } : ArrayNode)
      = { arrC3 with dimensions_elements := specChainedDivision 2 arrC3.dimensions_bytes } :=
  c3_array_dimension_inference 2 arrC3 stC3 2
    { arrC3 with dimensions_elements := [4, 3, 2] } (by decide) rfl (by decide)

/-- Whatever the forward-reference scan finds is a non-forward-reference
class with the requested `unique_name`, resident in the cache. -/
theorem findClassImpl_some {uname : Option String} {impl : ClassNode} {heap : List Ty} :
    ∀ types, findClassImpl uname types heap = some impl →
      impl.properties.forward_reference = false ∧ impl.unique_name = uname ∧
      ∃ k r, (k, r) ∈ types ∧ heap[r]? = some (.Class impl) := by
  intro types
  induction types with
  | nil => intro h; simp [findClassImpl] at h
  | cons p rest ih =>
    obtain ⟨k, r⟩ := p
    intro h
    simp only [findClassImpl] at h
    cases hh : heap[r]? with
    | none =>
      rw [hh] at h
      obtain ⟨h1, h2, k2, r2, hmem, hheap⟩ := ih h
      exact ⟨h1, h2, k2, r2, List.mem_cons_of_mem _ hmem, hheap⟩
    | some t =>
      rw [hh] at h
      cases t
      case Class cl =>
        dsimp only at h
        by_cases hc : cl.properties.forward_reference = false ∧ cl.unique_name = uname
        · rw [if_pos hc] at h
          cases h
          exact ⟨hc.1, hc.2, k, r, List.mem_cons_self _ _, hh⟩
        · rw [if_neg hc] at h
          obtain ⟨h1, h2, k2, r2, hmem, hheap⟩ := ih h
          exact ⟨h1, h2, k2, r2, List.mem_cons_of_mem _ hmem, hheap⟩
      all_goals (
        dsimp only at h
        obtain ⟨h1, h2, k2, r2, hmem, hheap⟩ := ih h
        exact ⟨h1, h2, k2, r2, List.mem_cons_of_mem _ hmem, hheap⟩)

/-- When some matching non-forward-reference class exists in the cache,
the scan finds one. -/
theorem findClassImpl_exists {uname : Option String} {heap : List Ty} :
    ∀ types,
      (∃ k r cl, (k, r) ∈ types ∧ heap[r]? = some (.Class cl) ∧
        cl.properties.forward_reference = false ∧ cl.unique_name = uname) →
      ∃ impl, findClassImpl uname types heap = some impl := by
  intro types
  induction types with
  | nil =>
    rintro ⟨k, r, cl, hmem, _⟩
    exact absurd hmem (List.not_mem_nil _)
  | cons p rest ih =>
    obtain ⟨k0, r0⟩ := p
    rintro ⟨k, r, cl, hmem, hheap, hfw, hun⟩
    simp only [findClassImpl]
    cases hh : heap[r0]? with
    | none =>
      rcases List.mem_cons.mp hmem with heq | hmem2
      · cases heq; rw [hh] at hheap; cases hheap
      · exact ih ⟨k, r, cl, hmem2, hheap, hfw, hun⟩
    | some t =>
      cases t
      case Class cl0 =>
        dsimp only
        by_cases hc : cl0.properties.forward_reference = false ∧ cl0.unique_name = uname
        · exact ⟨cl0, by rw [if_pos hc]⟩
        · rw [if_neg hc]
          rcases List.mem_cons.mp hmem with heq | hmem2
          · cases heq
            rw [hh] at hheap
            cases hheap
            exact absurd ⟨hfw, hun⟩ hc
          · exact ih ⟨k, r, cl, hmem2, hheap, hfw, hun⟩
      all_goals (
        dsimp only
        rcases List.mem_cons.mp hmem with heq | hmem2
        · cases heq; rw [hh] at hheap; cases hheap
        · exact ih ⟨k, r, cl, hmem2, hheap, hfw, hun⟩)

/-- A non-forward-reference class reports its declared size. -/
theorem classTypeSize_nonfwd (fuel : Nat) (c : ClassNode) (st : ParsedPdb)
    (h : c.properties.forward_reference = false) :
    classTypeSize (fuel+1) c st = .ok c.size := by
  simp [classTypeSize, h]

/-- Union analogue of `findClassImpl_some`. -/
theorem findUnionImpl_some {uname : Option String} {impl : UnionNode} {heap : List Ty} :
    ∀ types, findUnionImpl uname types heap = some impl →
      impl.properties.forward_reference = false ∧ impl.unique_name = uname ∧
      ∃ k r, (k, r) ∈ types ∧ heap[r]? = some (.Union impl) := by
  intro types
  induction types with
  | nil => intro h; simp [findUnionImpl] at h
  | cons p rest ih =>
    obtain ⟨k, r⟩ := p
    intro h
    simp only [findUnionImpl] at h
    cases hh : heap[r]? with
    | none =>
      rw [hh] at h
      obtain ⟨h1, h2, k2, r2, hmem, hheap⟩ := ih h
      exact ⟨h1, h2, k2, r2, List.mem_cons_of_mem _ hmem, hheap⟩
    | some t =>
      rw [hh] at h
      cases t
      case Union un =>
        dsimp only at h
        by_cases hc : un.properties.forward_reference = false ∧ un.unique_name = uname
        · rw [if_pos hc] at h
          cases h
          exact ⟨hc.1, hc.2, k, r, List.mem_cons_self _ _, hh⟩
        · rw [if_neg hc] at h
          obtain ⟨h1, h2, k2, r2, hmem, hheap⟩ := ih h
          exact ⟨h1, h2, k2, r2, List.mem_cons_of_mem _ hmem, hheap⟩
      all_goals (
        dsimp only at h
        obtain ⟨h1, h2, k2, r2, hmem, hheap⟩ := ih h
        exact ⟨h1, h2, k2, r2, List.mem_cons_of_mem _ hmem, hheap⟩)

/-- Union analogue of `findClassImpl_exists`. -/
theorem findUnionImpl_exists {uname : Option String} {heap : List Ty} :
    ∀ types,
      (∃ k r un, (k, r) ∈ types ∧ heap[r]? = some (.Union un) ∧
        un.properties.forward_reference = false ∧ un.unique_name = uname) →
      ∃ impl, findUnionImpl uname types heap = some impl := by
  intro types
  induction types with
  | nil =>
    rintro ⟨k, r, un, hmem, _⟩
    exact absurd hmem (List.not_mem_nil _)
  | cons p rest ih =>
    obtain ⟨k0, r0⟩ := p
    rintro ⟨k, r, un, hmem, hheap, hfw, hun⟩
    simp only [findUnionImpl]
    cases hh : heap[r0]? with
    | none =>
      rcases List.mem_cons.mp hmem with heq | hmem2
      · cases heq; rw [hh] at hheap; cases hheap
      · exact ih ⟨k, r, un, hmem2, hheap, hfw, hun⟩
    | some t =>
      cases t
      case Union un0 =>
        dsimp only
        by_cases hc : un0.properties.forward_reference = false ∧ un0.unique_name = uname
        · exact ⟨un0, by rw [if_pos hc]⟩
        · rw [if_neg hc]
          rcases List.mem_cons.mp hmem with heq | hmem2
          · cases heq
            rw [hh] at hheap
            cases hheap
            exact absurd ⟨hfw, hun⟩ hc
          · exact ih ⟨k, r, un, hmem2, hheap, hfw, hun⟩
      all_goals (
        dsimp only
        rcases List.mem_cons.mp hmem with heq | hmem2
        · cases heq; rw [hh] at hheap; cases hheap
        · exact ih ⟨k, r, un, hmem2, hheap, hfw, hun⟩)

/-- A non-forward-reference union reports its declared size. -/
theorem unionTypeSize_nonfwd (fuel : Nat) (u : UnionNode) (st : ParsedPdb)
    (h : u.properties.forward_reference = false) :
    unionTypeSize (fuel+1) u st = .ok u.size := by
  simp [unionTypeSize, h]

/-- Claim C4: for every Class or Union node with `forward_reference`
set, `type_size` returns the size of some non-forward-reference node of
the same kind in the cache sharing the same `unique_name` when such a
node exists; when none exists it falls back to the declared
size (logging, never panicking); with `forward_reference` unset it
returns the declared size directly. -/
theorem c4_forward_reference_size :
    (∀ (fuel : Nat) (c : ClassNode) (st : ParsedPdb),
      (c.properties.forward_reference = false →
        classTypeSize (fuel+2) c st = .ok c.size) ∧
      (c.properties.forward_reference = true →
        ((¬ ∃ k r cl, (k, r) ∈ st.types ∧ st.heap[r]? = some (.Class cl) ∧
            cl.properties.forward_reference = false ∧ cl.unique_name = c.unique_name) →
          classTypeSize (fuel+2) c st = .ok c.size) ∧
        ((∃ k r cl, (k, r) ∈ st.types ∧ st.heap[r]? = some (.Class cl) ∧
            cl.properties.forward_reference = false ∧ cl.unique_name = c.unique_name) →
          ∃ impl : ClassNode, impl.properties.forward_reference = false ∧
            impl.unique_name = c.unique_name ∧
            (∃ k r, (k, r) ∈ st.types ∧ st.heap[r]? = some (.Class impl)) ∧
            classTypeSize (fuel+2) c st = .ok impl.size))) ∧
    (∀ (fuel : Nat) (u : UnionNode) (st : ParsedPdb),
      (u.properties.forward_reference = false →
        unionTypeSize (fuel+2) u st = .ok u.size) ∧
      (u.properties.forward_reference = true →
        ((¬ ∃ k r un, (k, r) ∈ st.types ∧ st.heap[r]? = some (.Union un) ∧
            un.properties.forward_reference = false ∧ un.unique_name = u.unique_name) →
          unionTypeSize (fuel+2) u st = .ok u.size) ∧
        ((∃ k r un, (k, r) ∈ st.types ∧ st.heap[r]? = some (.Union un) ∧
            un.properties.forward_reference = false ∧ un.unique_name = u.unique_name) →
          ∃ impl : UnionNode, impl.properties.forward_reference = false ∧
            impl.unique_name = u.unique_name ∧
            (∃ k r, (k, r) ∈ st.types ∧ st.heap[r]? = some (.Union impl)) ∧
            unionTypeSize (fuel+2) u st = .ok impl.size))) := by
  constructor
  · intro fuel c st
    refine ⟨fun hnf => classTypeSize_nonfwd (fuel+1) c st hnf, fun hfw => ⟨?_, ?_⟩⟩
    · intro hnone
      have hfind : findClassImpl c.unique_name st.types st.heap = none := by
        cases hf : findClassImpl c.unique_name st.types st.heap with
        | none => rfl
        | some impl =>
          obtain ⟨h1, h2, k, r, hmem, hheap⟩ := findClassImpl_some st.types hf
          exact absurd ⟨k, r, impl, hmem, hheap, h1, h2⟩ hnone
      show classTypeSize ((fuel+1)+1) c st = .ok c.size
      simp [classTypeSize, hfw, hfind]
    · intro hex
      obtain ⟨impl, hfind⟩ := findClassImpl_exists st.types hex
      obtain ⟨h1, h2, hmem⟩ := findClassImpl_some st.types hfind
      refine ⟨impl, h1, h2, hmem, ?_⟩
      show classTypeSize ((fuel+1)+1) c st = .ok impl.size
      simp only [classTypeSize, hfw, if_true, hfind]
      exact classTypeSize_nonfwd fuel impl st h1
  · intro fuel u st
    refine ⟨fun hnf => unionTypeSize_nonfwd (fuel+1) u st hnf, fun hfw => ⟨?_, ?_⟩⟩
    · intro hnone
      have hfind : findUnionImpl u.unique_name st.types st.heap = none := by
        cases hf : findUnionImpl u.unique_name st.types st.heap with
        | none => rfl
        | some impl =>
          obtain ⟨h1, h2, k, r, hmem, hheap⟩ := findUnionImpl_some st.types hf
          exact absurd ⟨k, r, impl, hmem, hheap, h1, h2⟩ hnone
      show unionTypeSize ((fuel+1)+1) u st = .ok u.size
      simp [unionTypeSize, hfw, hfind]
    · intro hex
      obtain ⟨impl, hfind⟩ := findUnionImpl_exists st.types hex
      obtain ⟨h1, h2, hmem⟩ := findUnionImpl_some st.types hfind
      refine ⟨impl, h1, h2, hmem, ?_⟩
      show unionTypeSize ((fuel+1)+1) u st = .ok impl.size
      simp only [unionTypeSize, hfw, if_true, hfind]
      exact unionTypeSize_nonfwd fuel impl st h1

/-- Name shared by the C4 witness nodes. -/
def nmFoo : String := "Foo"

/-- Unique (decorated) name shared by the C4 witness nodes. -/
def unFoo : String := "?AUFoo"

/-- The forward-reference stub: declared size 0. -/
def stubFoo : ClassNode :=
  { name := nmFoo, unique_name := some unFoo, kind := .Struct, properties := fwdProps,
    derived_from := none, fields := [], size := 0 }

/-- The real definition: declared size 24. -/
def implFoo : ClassNode :=
  { name := nmFoo, unique_name := some unFoo, kind := .Struct, properties := noProps,
    derived_from := none, fields := [], size := 24 }

/-- A cache holding the stub (index 8, node 0) and the real definition
(index 9, node 1). -/
def stC4 : ParsedPdb := ⟨[(8, 0), (9, 1)], [.Class stubFoo, .Class implFoo]⟩

/-- Witness for C4: the forward-reference stub with declared size 0
reports the size 24 of the real definition. -/
theorem c4_forward_reference_size_witness :
    (∃ impl : ClassNode, impl.properties.forward_reference = false ∧
      impl.unique_name = stubFoo.unique_name ∧
      (∃ k r, (k, r) ∈ stC4.types ∧ stC4.heap[r]? = some (.Class impl)) ∧
      classTypeSize 2 stubFoo stC4 = .ok impl.size) ∧
    classTypeSize 2 stubFoo stC4 = .ok 24 :=
  ⟨((c4_forward_reference_size.1 0 stubFoo stC4).2 rfl).2
      ⟨9, 1, implFoo, by decide, rfl, rfl, rfl⟩,
   by decide⟩

/-- After a successful `handle_type`, the cache maps the requested index
to exactly the returned node reference. -/
theorem handleType_ok_cached {fuel : Nat} {idx : TypeIndexNumber} {finder : TypeFinder}
    {st st1 : ParsedPdb} {r : NodeId}
    (h : handleType fuel idx finder st = .ok (r, st1)) :
    lookupType st1.types idx = some r := by
  cases fuel with
  | zero => simp [handleType] at h
  | succ fuel =>
    simp only [handleType] at h
    cases hlook : lookupType st.types idx with
    | some r0 =>
      rw [hlook] at h
      dsimp only at h
      simp only [Res.ok.injEq, Prod.mk.injEq] at h
      obtain ⟨hr, hst⟩ := h
      subst hr
      subst hst
      exact hlook
    | none =>
      rw [hlook] at h
      dsimp only at h
      cases hfind : finder idx with
      | none => rw [hfind] at h; exact Res.noConfusion h
      | some res =>
        rw [hfind] at h
        cases res with
        | error e => dsimp only at h; exact Res.noConfusion h
        | ok raw =>
          dsimp only at h
          cases hdata : handleTypeData fuel raw finder st with
          | ok pr =>
            obtain ⟨r0, st2⟩ := pr
            rw [hdata] at h
            dsimp only at h
            simp only [Res.ok.injEq, Prod.mk.injEq] at h
            obtain ⟨hr, hst⟩ := h
            subst hr
            subst hst
            simp [lookupType]
          | err e st2 => rw [hdata] at h; exact Res.noConfusion h
          | panic m => rw [hdata] at h; exact Res.noConfusion h
          | diverge => rw [hdata] at h; exact Res.noConfusion h

/-- Claim C2: once an index has resolved to a node, resolving it again
returns the identity-same shared node (the same heap reference) and
leaves the parsed PDB unchanged — no second instance is ever created. -/
theorem c2_cache_uniqueness (fuel fuel2 : Nat) (idx : TypeIndexNumber) (finder : TypeFinder)
    (st st1 : ParsedPdb) (r : NodeId)
    (h : handleType fuel idx finder st = .ok (r, st1)) :
    handleType (fuel2+1) idx finder st1 = .ok (r, st1) := by
  have hc := handleType_ok_cached h
  simp [handleType, hc]

/-- Record finder holding one `U32` primitive record at index 5. -/
def fndC2 : TypeFinder := fun i => if i = 5 then some (.ok (.Primitive .U32 none)) else none

/-- The state after resolving index 5 from the empty state. -/
def stC2 : ParsedPdb := ⟨[(5, 0)], [.Primitive ⟨.U32, none⟩]⟩

/-- Witness for C2: resolving index 5 twice returns node 0 both times,
with no state change on the second call. -/
theorem c2_cache_uniqueness_witness :
    handleType 2 5 fndC2 emptyPdb = .ok (0, stC2) ∧
    handleType 1 5 fndC2 stC2 = .ok (0, stC2) :=
  ⟨by decide, c2_cache_uniqueness 2 0 5 fndC2 emptyPdb stC2 0 (by decide)⟩

/-- Claim C5: a resolved FieldList record with a continuation yields a
node whose field sequence is the (converted) fields of the record itself in
order followed by the fields of the recursively resolved continuation
FieldList, which must itself be a FieldList node.  (Chains of any length
follow by applying this to the resolution of the continuation itself.) -/
theorem c5_fieldlist_continuation (fuel : Nat) (fs : List TypeData) (k : TypeIndexNumber)
    (finder : TypeFinder) (st st2 : ParsedPdb) (r : NodeId)
    (h : handleTypeData (fuel+2) (.FieldList fs (some k)) finder st = .ok (r, st2)) :
    ∃ own st1 rc stc contFields,
      handleFields fuel fs finder st = .ok (own, st1) ∧
      handleType fuel k finder st1 = .ok (rc, stc) ∧
      stc.heap[rc]? = some (.FieldList contFields) ∧
      st2.heap[r]? = some (.FieldList (own ++ contFields)) := by
  rw [show fuel + 2 = (fuel+1)+1 from rfl] at h
  simp only [handleTypeData, convFieldList] at h
  cases hf : handleFields fuel fs finder st with
  | ok pr =>
    obtain ⟨own, st1⟩ := pr
    rw [hf] at h
    dsimp only at h
    cases hk : handleType fuel k finder st1 with
    | ok pr2 =>
      obtain ⟨rc, stc⟩ := pr2
      rw [hk] at h
      dsimp only at h
      cases hheap : stc.heap[rc]? with
      | some t =>
        rw [hheap] at h
        cases t
        case FieldList contFields =>
          dsimp only [allocAfter, ParsedPdb.alloc] at h
          simp only [Res.ok.injEq, Prod.mk.injEq] at h
          obtain ⟨hr, hst⟩ := h
          subst hr
          subst hst
          refine ⟨own, st1, rc, stc, contFields, rfl, hk, hheap, ?_⟩
          simp [List.getElem?_concat_length]
        all_goals (dsimp only [allocAfter] at h; exact Res.noConfusion h)
      | none =>
        rw [hheap] at h
        dsimp only [allocAfter] at h
        exact Res.noConfusion h
    | err e stx => rw [hk] at h; dsimp only [allocAfter] at h; exact Res.noConfusion h
    | panic m => rw [hk] at h; dsimp only [allocAfter] at h; exact Res.noConfusion h
    | diverge => rw [hk] at h; dsimp only [allocAfter] at h; exact Res.noConfusion h
  | err e stx => rw [hf] at h; dsimp only [allocAfter] at h; exact Res.noConfusion h
  | panic m => rw [hf] at h; dsimp only [allocAfter] at h; exact Res.noConfusion h
  | diverge => rw [hf] at h; dsimp only [allocAfter] at h; exact Res.noConfusion h

/-- Member names for the C5 witness. -/
def nmA1 : String := "a1"

/-- Second member name for the C5 witness. -/
def nmA2 : String := "a2"

/-- Third member name for the C5 witness. -/
def nmB1 : String := "b1"

/-- Fourth member name for the C5 witness. -/
def nmB2 : String := "b2"

/-- Fifth member name for the C5 witness. -/
def nmB3 : String := "b3"

/-- The two inline fields of the first physical FieldList record. -/
def flC5 : List TypeData := [.Member 5 0 nmA1, .Member 5 4 nmA2]

/-- Record finder: index 10 is a FieldList with 2 inline fields and
continuation 11; index 11 is a FieldList with 3 inline fields and no
continuation; index 5 is the `U32` type of the members. -/
def fndC5 : TypeFinder := fun i =>
  if i = 5 then some (.ok (.Primitive .U32 none))
  else if i = 10 then some (.ok (.FieldList flC5 (some 11)))
  else if i = 11 then
    some (.ok (.FieldList [.Member 5 8 nmB1, .Member 5 12 nmB2, .Member 5 16 nmB3] none))
  else none

/-- The state after converting the payload of record 10: member nodes
1 to 5, the FieldList node 6 of the continuation, and the combined FieldList node 7
holding all five fields in order. -/
def stC5data : ParsedPdb :=
  ⟨[(11, 6), (5, 0)],
   [.Primitive ⟨.U32, none⟩,
    .Member ⟨nmA1, 0, 0⟩, .Member ⟨nmA2, 0, 4⟩,
    .Member ⟨nmB1, 0, 8⟩, .Member ⟨nmB2, 0, 12⟩, .Member ⟨nmB3, 0, 16⟩,
    .FieldList [3, 4, 5], .FieldList [1, 2, 3, 4, 5]]⟩

/-- Witness for C5: 2 inline fields plus a 3-field continuation resolve
to exactly the five member nodes `[1, 2, 3, 4, 5]`, first two then the
next three, in order. -/
theorem c5_fieldlist_continuation_witness :
    (∃ own st1 rc stc contFields,
      handleFields 9 flC5 fndC5 emptyPdb = .ok (own, st1) ∧
      handleType 9 11 fndC5 st1 = .ok (rc, stc) ∧
      stc.heap[rc]? = some (.FieldList contFields) ∧
      stC5data.heap[7]? = some (.FieldList (own ++ contFields))) ∧
    stC5data.heap[7]? = some (.FieldList [1, 2, 3, 4, 5]) :=
  ⟨c5_fieldlist_continuation 9 flC5 11 fndC5 emptyPdb stC5data 7 (by decide), by decide⟩

/-- Claim C6: a symbol whose conversion fails with a recoverable error
is dropped and the stream is processed exactly as if that symbol were
absent — no fatal error arises from it and the
conversion of every other symbol is unaffected. -/
theorem c6_symbol_fault_isolation (types : List (TypeIndexNumber × NodeId))
    (idFinder : Option IdFinderModel) (xs ys : List RawSym) (bad : RawSym) (e : Err)
    (out : SymOut)
    (hbad : ∀ o : SymOut, handleSymbol bad types idFinder o = .err e) :
    processSymbols types idFinder (xs ++ bad :: ys) out
      = processSymbols types idFinder (xs ++ ys) out := by
  induction xs generalizing out with
  | nil =>
    simp only [List.nil_append, processSymbols, hbad out]
  | cons x xs ih =>
    simp only [List.cons_append, processSymbols]
    cases hx : handleSymbol x types idFinder out with
    | ok out1 => exact ih out1
    | err e2 => exact ih out
    | panic m => rfl

/-- Name of the public symbol in the C6 witness. -/
def nmPub : String := "ExportedEntry"

/-- Name of the failing data symbol in the C6 witness. -/
def nmBadData : String := "gMissing"

/-- Name of the convertible data symbol in the C6 witness. -/
def nmGoodData : String := "gCounter"

/-- The resolved-type map for the C6 witness: only index 5 resolved. -/
def tyC6 : List (TypeIndexNumber × NodeId) := [(5, 0)]

/-- A convertible public symbol. -/
def symPub : RawSym := .ok (.Public ⟨nmPub, true, true, false, false, some 4096⟩)

/-- A data symbol referencing the nonexistent type index 99. -/
def symBad : RawSym := .ok (.Data ⟨nmBadData, true, false, 99, some 8192⟩)

/-- A convertible global data symbol referencing type index 5. -/
def symGood : RawSym := .ok (.Data ⟨nmGoodData, true, false, 5, some 12288⟩)

/-- The output model for the C6 witness: exactly the two convertible
symbols survive. -/
def outC6 : SymOut :=
  { public_symbols := [⟨nmPub, true, true, false, false, some 4096⟩],
    procedures := [],
    global_data := [⟨nmGoodData, true, false, 0, some 12288⟩],
    build_info := none,
    compiler_info := none }

/-- Witness for C6: a stream of 2 convertible symbols around 1 failing
symbol yields exactly the 2 converted symbols, with no fatal error. -/
theorem c6_symbol_fault_isolation_witness :
    processSymbols tyC6 none [symPub, symBad, symGood] emptySymOut
      = processSymbols tyC6 none [symPub, symGood] emptySymOut ∧
    processSymbols tyC6 none [symPub, symGood] emptySymOut = .ok outC6 :=
  ⟨c6_symbol_fault_isolation tyC6 none [symPub] [symGood] symBad (.UnresolvedType 99)
      emptySymOut (fun _ => rfl),
   by decide⟩

/-- A record finder with no records at all. -/
def fndNone : TypeFinder := fun _ => none

/-- Counterexample for C7: on an uncached index the finder cannot
supply, `handle_type` panics (`.expect("failed to resolve type")`)
instead of returning the recoverable error `UnresolvedType(index)`. -/
theorem c7_counterexample :
    handleType 1 5 fndNone emptyPdb = .panic msgFailedResolveType ∧
    (handleType 1 5 fndNone emptyPdb).isErr = false ∧
    (Res.panic msgFailedResolveType : Res (NodeId × ParsedPdb))
      ≠ .err (.UnresolvedType 5) emptyPdb :=
  ⟨rfl, by decide, by decide⟩

/-- Claim C7 (amended): for every TypeIndex not already cached and for
which the record finder has no record, `handle_type` panics with
"failed to resolve type" (aborting the process) rather than returning an
error; the `UnresolvedType(index)` error is produced elsewhere — by the
`Data` symbol conversion when a symbol references an index missing from
the resolved type map. -/
theorem c7_unresolved_index (fuel : Nat) (idx : TypeIndexNumber) (finder : TypeFinder)
    (st : ParsedPdb)
    (hcache : lookupType st.types idx = none)
    (hfind : finder idx = none) :
    handleType (fuel+1) idx finder st = .panic msgFailedResolveType ∧
    (∀ d : RawData, d.type_index = idx → lookupType st.types d.type_index = none →
      convData d st.types = .err (.UnresolvedType idx)) := by
  constructor
  · simp [handleType, hcache, hfind]
  · intro d hd hlook
    rw [hd] at hlook
    simp [convData, hd, hlook]

/-- Witness for the amended C7 at a concrete empty cache and finder. -/
theorem c7_unresolved_index_witness :
    handleType 1 5 fndNone emptyPdb = .panic msgFailedResolveType ∧
    (∀ d : RawData, d.type_index = 5 → lookupType emptyPdb.types d.type_index = none →
      convData d emptyPdb.types = .err (.UnresolvedType 5)) :=
  c7_unresolved_index 0 5 fndNone emptyPdb rfl rfl

/-- Enumeration name for the C10 failing input. -/
def nmE : String := "Color"

/-- Variant name carried by the C10 field list. -/
def nmV : String := "Red"

/-- The raw Enumeration record: underlying type index 5, field list
index 201 (which holds one named variant). -/
def rawEnC10 : RawEnumeration :=
  { count := 1, properties := noProps, underlying_type := 5, fields := 201,
    name := nmE, unique_name := none }

/-- Record finder for C10: the enumeration, its underlying `U32`, and
its field list containing the single variant `Red = 1`. -/
def fnd10 : TypeFinder := fun i =>
  if i = 5 then some (.ok (.Primitive .U32 none))
  else if i = 200 then some (.ok (.Enumeration rawEnC10))
  else if i = 201 then some (.ok (.FieldList [.Enumerate nmV (.U8 1)] none))
  else none

/-- The Enumeration node the converter actually produces: names and the
shared underlying-type reference are carried, but `variants` is empty. -/
def enC10 : EnumerationNode := { name := nmE, unique_name := none, underlying_type := 0,
                                 variants := [] }

/-- Claim C10 evaluated at the failing input: the referenced field list
(index 201) contains the named variant `Red = 1`, yet the resolved
resulting `variants` list on the Enumeration node is empty — the conversion never
consults the `fields` index (`// TODO: Variants` in the source), so the
named variants are not materialized. -/
theorem c10_enum_variants_not_materialized :
    handleType 6 200 fnd10 emptyPdb
      = .ok (1, ⟨[(200, 1), (5, 0)], [.Primitive ⟨.U32, none⟩, .Enumeration enC10]⟩) ∧
    enC10.variants = [] ∧
    fnd10 201 = some (.ok (.FieldList [.Enumerate nmV (.U8 1)] none)) :=
  ⟨by decide, rfl, rfl⟩

/-- Class name for the C1 cyclic record graph. -/
def nmC1 : String := "A"

/-- Member name for the C1 cyclic record graph. -/
def nmC1p : String := "self"

/-- The raw class record for type A (index 100): its field list is
record 101. -/
def rawC1A : RawClass :=
  { kind := .Struct, count := 1, properties := noProps, fields := some 101,
    derived_from := none, vtable_shape := none, size := 8, name := nmC1,
    unique_name := none }

/-- The cyclic record graph: A (100) → field list (101) → member of
pointer type (102) → pointee A (100). -/
def cycFinder : TypeFinder := fun i =>
  if i = 100 then some (.ok (.Class rawC1A))
  else if i = 101 then some (.ok (.FieldList [.Member 102 0 nmC1p] none))
  else if i = 102 then some (.ok (.Pointer 100 ptr64Attrs none))
  else none

/-- Divergence of every intermediate stage of resolving the cyclic
graph: because `handle_type` caches a node only after its construction
finishes, each recursive visit of index 100 starts from the same empty
cache, and each of the thirteen interpreter stages in the cycle passes
strictly less fuel to the next. -/
theorem c1_cycle_stages (n : Nat) :
    handleType n 100 cycFinder emptyPdb = .diverge ∧
    handleTypeData n (.Class rawC1A) cycFinder emptyPdb = .diverge ∧
    convClass n rawC1A cycFinder emptyPdb = .diverge ∧
    resolveClassFields n (some 101) cycFinder emptyPdb = .diverge ∧
    handleType n 101 cycFinder emptyPdb = .diverge ∧
    handleTypeData n (.FieldList [.Member 102 0 nmC1p] none) cycFinder emptyPdb = .diverge ∧
    convFieldList n [.Member 102 0 nmC1p] none cycFinder emptyPdb = .diverge ∧
    handleFields n [.Member 102 0 nmC1p] cycFinder emptyPdb = .diverge ∧
    handleTypeData n (.Member 102 0 nmC1p) cycFinder emptyPdb = .diverge ∧
    convMember n 102 0 nmC1p cycFinder emptyPdb = .diverge ∧
    handleType n 102 cycFinder emptyPdb = .diverge ∧
    handleTypeData n (.Pointer 100 ptr64Attrs none) cycFinder emptyPdb = .diverge ∧
    convPointer n 100 ptr64Attrs none cycFinder emptyPdb = .diverge := by
  induction n with
  | zero => exact ⟨rfl, rfl, rfl, rfl, rfl, rfl, rfl, rfl, rfl, rfl, rfl, rfl, rfl⟩
  | succ n ih =>
    obtain ⟨h1, h2, h3, h4, h5, h6, h7, h8, h9, h10, h11, h12, h13⟩ := ih
    refine ⟨?_, ?_, ?_, ?_, ?_, ?_, ?_, ?_, ?_, ?_, ?_, ?_, ?_⟩
    · simp only [emptyPdb] at h2
      simp [handleType, lookupType, cycFinder, emptyPdb, h2]
    · simp [handleTypeData, allocAfter, h3]
    · simp [convClass, rawC1A, h4]
    · simp [resolveClassFields, Res.orPanic, h5]
    · simp only [emptyPdb] at h6
      simp [handleType, lookupType, cycFinder, emptyPdb, h6]
    · simp [handleTypeData, allocAfter, h7]
    · simp [convFieldList, h8]
    · simp [handleFields, h9]
    · simp [handleTypeData, allocAfter, h10]
    · simp [convMember, h11]
    · simp only [emptyPdb] at h12
      simp [handleType, lookupType, cycFinder, emptyPdb, h12]
    · simp [handleTypeData, allocAfter, h13]
    · simp [convPointer, h1]

/-- Claim C1 evaluated at the failing input: on the cyclic graph where
the field list of A contains a pointer back to A, `handle_type` never
terminates — for every fuel bound the resolution is still running,
because the cache insert in `handle_type` happens only after
`handle_type_data` returns, so no placeholder ever breaks the cycle. -/
theorem c1_cycle_resolution_diverges (fuel : Nat) :
    handleType fuel 100 cycFinder emptyPdb = .diverge :=
  (c1_cycle_stages fuel).1
